import Mathlib

/-!
Shallow embedding of the libei input backend of smithay
(`src/backend/libei/handshake.rs` and `src/backend/libei/mod.rs`),
together with theorems settling the spec claims about it.

Conventions:
* Rust `HashMap<&str, u32>` is modelled as an association list
  `List (String × Nat)` with replace-on-insert semantics; only lookup
  behaviour is observable, so the representation is faithful.
* Machine integers (`u32`, `u64`) are `Nat` with explicit `% 2^w`
  where overflow can occur; bitwise ops use `Nat.land` / shifts.
* `f32` scroll fields are modelled as `ℚ`: the code never performs
  float arithmetic on them, only comparison with `0.0` and identity
  pass-through, which `ℚ` captures exactly (the literal `0.01` is
  modelled as `1/100`).
* Effects on the wire (messages sent, flushes, device creation) are
  reified as an explicit effect list so that ordering claims
  ("sent and flushed before removal") are statable.
-/

namespace Libei

/-- `eis::handshake::ContextType` (from the reis dependency). -/
inductive EiContextType where
  | sender
  | receiver
deriving DecidableEq, Repr

/-- `eis::handshake::Request` (from the reis dependency).  The Rust match
in `HandshakeState::handle_request` has a `_ => {}` catch-all for future
protocol additions; `other` stands for any such request. -/
inductive HsRequest where
  | handshakeVersion (version : Nat)
  | contextType (ct : EiContextType)
  | name (s : String)
  | interfaceVersion (name : String) (version : Nat)
  | finish
  | other
deriving DecidableEq, Repr

/-- Association-list lookup, modelling `HashMap::get` /
`HashMap::contains_key`. -/
def lookupTable (m : List (String × Nat)) (k : String) : Option Nat :=
  match m with
  | [] => none
  | (k', v) :: rest => if k' == k then some v else lookupTable rest k

/-- Association-list insert with replacement, modelling `HashMap::insert`. -/
def insertAssoc (m : List (String × Nat)) (k : String) (v : Nat) : List (String × Nat) :=
  match m with
  | [] => [(k, v)]
  | (k', v') :: rest => if k' == k then (k, v) :: rest else (k', v') :: insertAssoc rest k v

/-- `SERVER_INTERFACES` from `src/backend/libei/handshake.rs` lines 7-21:
the static table of supported interfaces and their maximum versions. -/
def SERVER_INTERFACES : List (String × Nat) :=
  [("ei_callback", 1), ("ei_connection", 1), ("ei_seat", 1), ("ei_device", 1),
   ("ei_pingpong", 1), ("ei_keyboard", 1), ("ei_pointer", 1),
   ("ei_pointer_absolute", 1), ("ei_button", 1), ("ei_scroll", 1),
   ("ei_touchscreen", 1)]

/-- `HandshakeResult` from `src/backend/libei/handshake.rs`.
`SenderEst` stands for `Sender(SenderState::new(..))`; `ReceiverTodo`
stands for the `todo!()` panic in the `Receiver` arm of `Finish`. -/
inductive HandshakeResult where
  | Continue
  | Disconnect
  | SenderEst
  | ReceiverTodo
deriving DecidableEq, Repr

/-- `HandshakeState` from `src/backend/libei/handshake.rs` (the `handshake`
proxy object itself carries no negotiation state and is elided). -/
structure HandshakeState where
  context_type : Option EiContextType
  name : Option String
  negotiated_interfaces : List (String × Nat)
deriving DecidableEq, Repr

/-- The state produced by `HandshakeState::new`. -/
def HandshakeState.init : HandshakeState :=
  { context_type := none, name := none, negotiated_interfaces := [] }

/-- `HandshakeState::handle_request` (handshake.rs lines 50-98), as a pure
state-passing function.  Wire emissions in the `Finish` arm
(`interface_version` echoes and the `connection(0, 1)` allocation) carry no
negotiation state and are elided; the returned `HandshakeResult` is exact. -/
def handle_request (s : HandshakeState) (r : HsRequest) : HandshakeState × HandshakeResult :=
  match r with
  | .handshakeVersion _ => (s, .Continue)
  | .contextType ct =>
      if s.context_type.isSome then (s, .Disconnect)
      else ({ s with context_type := some ct }, .Continue)
  | .name n =>
      if s.name.isSome then (s, .Disconnect)
      else ({ s with name := some n }, .Continue)
  | .interfaceVersion n v =>
      match lookupTable SERVER_INTERFACES n with
      | some server_version =>
          ({ s with negotiated_interfaces :=
              insertAssoc s.negotiated_interfaces n (min v server_version) }, .Continue)
      | none => (s, .Continue)
  | .finish =>
      if ["ei_connection", "ei_pingpong", "ei_callback"].any
          (fun i => (lookupTable s.negotiated_interfaces i).isNone) then
        (s, .Disconnect)
      else
        match s.context_type with
        | some .sender => (s, .SenderEst)
        | some .receiver => (s, .ReceiverTodo)
        | none => (s, .Disconnect)
  | .other => (s, .Continue)

/-- Fold a sequence of `InterfaceVersion(name, v)` requests through the
handshake engine, keeping the resulting state. -/
def runInterfaceVersions (s : HandshakeState) (reqs : List (String × Nat)) : HandshakeState :=
  reqs.foldl (fun st p => (handle_request st (.interfaceVersion p.1 p.2)).1) s

/-- The version carried by the last request in `reqs` for interface `n`
(spec-side helper used to state claim C1). -/
def lastRequested (reqs : List (String × Nat)) (n : String) : Option Nat :=
  match reqs with
  | [] => none
  | (m, v) :: rest =>
      match lastRequested rest n with
      | some w => some w
      | none => if m == n then some v else none

/-! ## Request Translator (`src/backend/libei/mod.rs`) -/

/-- `input::Axis` (the two scroll axes). -/
inductive Axis where
  | Horizontal
  | Vertical
deriving DecidableEq, Repr

/-- `reis::request::ScrollDelta` (fields `dx`, `dy` are `f32`; modelled
as `ℚ`, see the header note). -/
structure ScrollDelta where
  dx : ℚ
  dy : ℚ
deriving DecidableEq, Repr

/-- `reis::request::ScrollCancel` (per-axis cancelled flags). -/
structure ScrollCancel where
  x : Bool
  y : Bool
deriving DecidableEq, Repr

/-- `reis::request::ScrollStop` (per-axis stop flags). -/
structure ScrollStop where
  x : Bool
  y : Bool
deriving DecidableEq, Repr

/-- `reis::request::ScrollDiscrete` (fields are `i32`; the code only
compares them with `0` and injects them, so `Int` is faithful). -/
structure ScrollDiscrete where
  discrete_dx : Int
  discrete_dy : Int
deriving DecidableEq, Repr

/-- `ScrollEvent` from `src/backend/libei/mod.rs` lines 185-190. -/
inductive ScrollEvent where
  | Delta (e : ScrollDelta)
  | Cancel (e : ScrollCancel)
  | Discrete (e : ScrollDiscrete)
  | Stop (e : ScrollStop)
deriving DecidableEq, Repr

/-- `ScrollEvent::amount` (mod.rs lines 213-233): the continuous per-axis
scroll amount.  `0.01` is the fixed cancel sentinel (`// Same as Mutter`). -/
def ScrollEvent.amount (ev : ScrollEvent) (axis : Axis) : Option ℚ :=
  match ev with
  | .Delta e =>
      match axis with
      | .Horizontal => if e.dx ≠ 0 then some e.dx else none
      | .Vertical => if e.dy ≠ 0 then some e.dy else none
  | .Cancel e =>
      match axis with
      | .Horizontal => if e.x then some (1 / 100) else none
      | .Vertical => if e.y then some (1 / 100) else none
  | .Discrete _ => none
  | .Stop e =>
      match axis with
      | .Horizontal => if e.x then some 0 else none
      | .Vertical => if e.y then some 0 else none

/-- `ScrollEvent::amount_v120` (mod.rs lines 235-244): the discrete
120-units-per-notch channel. -/
def ScrollEvent.amount_v120 (ev : ScrollEvent) (axis : Axis) : Option ℚ :=
  match ev with
  | .Discrete e =>
      match axis with
      | .Horizontal => if e.discrete_dx ≠ 0 then some (e.discrete_dx : ℚ) else none
      | .Vertical => if e.discrete_dy ≠ 0 then some (e.discrete_dy : ℚ) else none
  | _ => none

/-- Spec-side restatement of the scroll translation table (§4.3 / §8 of the
spec), written from the spec's words, to be compared with
`ScrollEvent.amount`: for `Delta`, the raw per-axis value when non-zero and
absent otherwise; for `Cancel`, the sentinel `0.01` on each flagged axis;
for `Stop`, `0.0` on each flagged axis; for `Discrete`, always absent. -/
def scrollAmountSpec (ev : ScrollEvent) (axis : Axis) : Option ℚ :=
  match ev, axis with
  | .Delta e, .Horizontal => if e.dx = 0 then none else some e.dx
  | .Delta e, .Vertical => if e.dy = 0 then none else some e.dy
  | .Cancel e, .Horizontal => if e.x then some (1 / 100) else none
  | .Cancel e, .Vertical => if e.y then some (1 / 100) else none
  | .Stop e, .Horizontal => if e.x then some 0 else none
  | .Stop e, .Vertical => if e.y then some 0 else none
  | .Discrete _, _ => none

/-- `eis::keyboard::KeyState` (wire key state, from the reis dependency). -/
inductive EisKeyState where
  | Released
  | Press
deriving DecidableEq, Repr

/-- `input::KeyState` (smithay's translated key state). -/
inductive KeyState where
  | Released
  | Pressed
deriving DecidableEq, Repr

/-- `2^32`, the modulus of `u32` arithmetic. -/
def U32_MOD : Nat := 2 ^ 32

/-- `reis::request::KeyboardKey`: wire key code (`key : u32`, modelled as
`Nat < 2^32` values) and wire key state. -/
structure KeyboardKey where
  key : Nat
  state : EisKeyState
deriving DecidableEq, Repr

/-- `KeyboardKeyEvent::key_code` (mod.rs lines 169-171):
`Keycode::from(self.key + 8)`, a `u32` addition, hence mod `2^32`. -/
def KeyboardKey.key_code (e : KeyboardKey) : Nat :=
  (e.key + 8) % U32_MOD

/-- `KeyboardKeyEvent::state` (mod.rs lines 173-178). -/
def KeyboardKey.keyState (e : KeyboardKey) : KeyState :=
  match e.state with
  | .Released => .Released
  | .Press => .Pressed

/-- `KeyboardKeyEvent::count` (mod.rs lines 180-182): fixed at 1. -/
def KeyboardKey.count (_ : KeyboardKey) : Nat := 1

/-! ## I/O Adapter event processing (`EiInput::process_events`) -/

/-- `reis::request::DeviceCapability` (reis enum, discriminants 0-5 in
declaration order; the Bind branch uses `2 << (cap as u64)` as the
capability bit, so the six valid bits form the mask `0x7e`). -/
inductive DeviceCapability where
  | Pointer
  | PointerAbsolute
  | Keyboard
  | Touch
  | Scroll
  | Button
deriving DecidableEq, Repr

/-- The Rust discriminant (`cap as u64`). -/
def DeviceCapability.disc : DeviceCapability → Nat
  | .Pointer => 0
  | .PointerAbsolute => 1
  | .Keyboard => 2
  | .Touch => 3
  | .Scroll => 4
  | .Button => 5

/-- `2 << (cap as u64)`: the capability's bit in a Bind bitmask. -/
def capBit (c : DeviceCapability) : Nat := 2 <<< c.disc

/-- `eis::connection::DisconnectReason` (only the variants the adapter
can emit are listed; `Value` is the one used for invalid bitmasks). -/
inductive DisconnectReason where
  | Disconnected
  | Error
  | Value
  | Transport
deriving DecidableEq, Repr

/-- `calloop::PostAction`. -/
inductive PostAction where
  | Continue
  | Reregister
  | Disable
  | Remove
deriving DecidableEq, Repr

/-- Observable wire/side effects of one `process_events` closure call.
`sendKeymap` stands for the keymap side-channel delivery inside the
keyboard branch (its byte content comes from the environment, not from
wire state, and is elided). -/
inductive Effect where
  | sendDisconnected (reason : DisconnectReason) (explanation : String)
  | flush
  | addSeat
  | addDevice (name : String) (cap : DeviceCapability)
  | sendKeymap
  | logError
deriving DecidableEq, Repr

/-- Adapter-side connection state: whether `self.seat` is `Some`, and the
set of interfaces the reis `Connection` reports via `has_interface`
(fixed at handshake time). -/
structure ConnState where
  seatSet : Bool
  interfaces : List String
deriving DecidableEq, Repr

/-- The events the reis request source hands to the closure in
`EiInput::process_events` (mod.rs lines 379-490).  `requestOther` stands
for any `EisRequest` other than `Disconnect`/`Bind`: those are passed to
`convert_request` and delivered to the sink, which cannot fail. -/
inductive SourceEvent where
  | connected
  | requestDisconnect
  | requestBind (capabilities : Nat)
  | requestOther
  | invalidObject (objectId : Nat)
  | ioError
deriving DecidableEq, Repr

/-- Outcome of one closure call: either a Rust panic, or an updated state
with the effects performed and the returned `PostAction`. -/
inductive StepResult where
  | panic (msg : String)
  | ok (s : ConnState) (effects : List Effect) (post : PostAction)
deriving DecidableEq, Repr

/-- The device-creation cascade of the `Bind` branch (mod.rs lines
413-473), reached only after the bitmask check and the seat unwrap:
keyboard, pointer, touch, pointer-abs, each guarded by
`connection.has_interface(..) && capabilities & 2 << cap != 0`. -/
def bindDevices (s : ConnState) (capabilities : Nat) : List Effect :=
  (if s.interfaces.contains "ei_keyboard" && (capabilities &&& capBit .Keyboard) != 0 then
    [.addDevice "keyboard" .Keyboard, .sendKeymap]
  else []) ++
  (if s.interfaces.contains "ei_pointer" && (capabilities &&& capBit .Pointer) != 0 then
    [.addDevice "pointer" .Pointer]
  else []) ++
  (if s.interfaces.contains "ei_touchscreen" && (capabilities &&& capBit .Touch) != 0 then
    [.addDevice "touch" .Touch]
  else []) ++
  (if s.interfaces.contains "ei_pointer_absolute" && (capabilities &&& capBit .PointerAbsolute) != 0 then
    [.addDevice "pointer-abs" .PointerAbsolute]
  else [])

/-- One call of the closure in `EiInput::process_events` (mod.rs lines
379-490).  Early `return`s skip the trailing `connection.flush()` at line
488; the `disconnected` helper (lines 89-97) sends the reason, flushes,
and returns `Remove`.  The `Bind` branch unwraps `self.seat` (line 411)
after the bitmask check: with no seat this is a Rust panic. -/
def stepConn (s : ConnState) (ev : SourceEvent) : StepResult :=
  match ev with
  | .connected => .ok { s with seatSet := true } [.addSeat, .flush] .Continue
  | .requestDisconnect => .ok s [] .Remove
  | .requestBind capabilities =>
      if (capabilities &&& 0x7e) != capabilities then
        .ok s [.sendDisconnected .Value "Invalid capabilities", .flush] .Remove
      else if !s.seatSet then
        .panic "called Option::unwrap() on a None value"
      else
        .ok s (bindDevices s capabilities ++ [.flush]) .Continue
  | .requestOther => .ok s [.flush] .Continue
  | .invalidObject _ => .ok s [.flush] .Continue
  | .ioError => .ok s [.logError] .Remove

/-- Outcome of draining a batch of source events. -/
inductive RunResult where
  | panic (msg : String)
  | done (s : ConnState) (effects : List Effect) (post : PostAction)
deriving DecidableEq, Repr

/-- Drain a list of source events through `stepConn`; a `Remove`
post-action removes the event source, so processing stops there. -/
def runConn (s : ConnState) : List SourceEvent → RunResult
  | [] => .done s [] .Continue
  | ev :: rest =>
      match stepConn s ev with
      | .panic m => .panic m
      | .ok s' eff post =>
          if post = .Remove then .done s' eff .Remove
          else match runConn s' rest with
            | .panic m => .panic m
            | .done s'' eff' post' => .done s'' (eff ++ eff') post'

/-- Number of devices created in a run's effect list. -/
def countDevices (effects : List Effect) : Nat :=
  effects.countP (fun e => match e with | .addDevice _ _ => true | _ => false)

/-- Devices created by a run (empty on panic). -/
def runDevices (r : RunResult) : Nat :=
  match r with
  | .panic _ => 0
  | .done _ effects _ => countDevices effects

/-! ## Helper lemmas -/

theorem lookup_insertAssoc_self (m : List (String × Nat)) (k : String) (v : Nat) :
    lookupTable (insertAssoc m k v) k = some v := by
  induction m with
  | nil => simp [insertAssoc, lookupTable]
  | cons p rest ih =>
    obtain ⟨k', v'⟩ := p
    simp only [insertAssoc]
    split
    · simp [lookupTable]
    · next h => simp [lookupTable, h, ih]

theorem lookup_insertAssoc_ne (m : List (String × Nat)) (k k' : String) (v : Nat)
    (h : k' ≠ k) : lookupTable (insertAssoc m k v) k' = lookupTable m k' := by
  induction m with
  | nil => simp [insertAssoc, lookupTable, Ne.symm h]
  | cons p rest ih =>
    obtain ⟨k₀, v₀⟩ := p
    simp only [insertAssoc]
    split
    · next hk =>
      have hk : k₀ = k := by simpa using hk
      subst hk
      simp [lookupTable, Ne.symm h]
    · simp [lookupTable, ih]

/-- An `InterfaceVersion` request for a name other than `n` leaves the
negotiated entry for `n` unchanged. -/
theorem handle_interfaceVersion_other (s : HandshakeState) (m n : String) (v : Nat)
    (hmn : m ≠ n) :
    lookupTable ((handle_request s (.interfaceVersion m v)).1).negotiated_interfaces n =
      lookupTable s.negotiated_interfaces n := by
  simp only [handle_request]
  cases hm : lookupTable SERVER_INTERFACES m with
  | some sw => simp [lookup_insertAssoc_ne _ _ _ _ (fun hh => hmn hh.symm)]
  | none => simp

/-! ## Claim theorems: Handshake Engine -/

/-- C1: for every sequence of `InterfaceVersion(name, v)` requests, each
step returns `Continue`; the final negotiated version for a table name
equals `min(last requested version, table maximum)` (and is untouched if
the name was never requested); a name absent from the table adds no entry,
changes nothing, and still yields `Continue`. -/
theorem interface_version_negotiation (s : HandshakeState) (reqs : List (String × Nat))
    (n : String) :
    (∀ v, (handle_request s (.interfaceVersion n v)).2 = .Continue) ∧
    (∀ sv, lookupTable SERVER_INTERFACES n = some sv →
      lookupTable (runInterfaceVersions s reqs).negotiated_interfaces n =
        (match lastRequested reqs n with
         | some v => some (min v sv)
         | none => lookupTable s.negotiated_interfaces n)) ∧
    (lookupTable SERVER_INTERFACES n = none →
      ∀ v, handle_request s (.interfaceVersion n v) = (s, .Continue)) := by
  refine ⟨?_, ?_, ?_⟩
  · intro v
    cases h : lookupTable SERVER_INTERFACES n <;> simp [handle_request, h]
  · intro sv hsv
    induction reqs generalizing s with
    | nil => rfl
    | cons p rest ih =>
      obtain ⟨m, v⟩ := p
      have hrun : runInterfaceVersions s ((m, v) :: rest) =
          runInterfaceVersions (handle_request s (.interfaceVersion m v)).1 rest := rfl
      rw [hrun, ih]
      cases hlast : lastRequested rest n with
      | some w => simp [lastRequested, hlast]
      | none =>
        simp only [lastRequested, hlast]
        by_cases hmn : m = n
        · subst hmn
          simp [handle_request, hsv, lookup_insertAssoc_self]
        · simp [handle_interfaceVersion_other s m n v hmn, hmn]
  · intro hn v
    simp [handle_request, hn]

/-- Witness for C1: after requesting `ei_seat` at version 5 (table maximum
1) and an unknown name, the negotiated version for `ei_seat` is
`min(5, 1)`, and the unknown-name request is a strict no-op. -/
theorem interface_version_negotiation_witness :
    lookupTable (runInterfaceVersions HandshakeState.init
        [("ei_seat", 5), ("bogus", 3)]).negotiated_interfaces "ei_seat" =
      (match lastRequested [("ei_seat", 5), ("bogus", 3)] "ei_seat" with
       | some v => some (min v 1)
       | none => lookupTable HandshakeState.init.negotiated_interfaces "ei_seat") ∧
    handle_request HandshakeState.init (.interfaceVersion "bogus" 3) =
      (HandshakeState.init, .Continue) :=
  ⟨(interface_version_negotiation HandshakeState.init [("ei_seat", 5), ("bogus", 3)]
      "ei_seat").2.1 1 (by decide),
   (interface_version_negotiation HandshakeState.init [] "bogus").2.2 (by decide) 3⟩

/-- C3: `Finish` yields `Disconnect` whenever any of the mandatory
interfaces `ei_connection`, `ei_pingpong`, `ei_callback` is missing from
the negotiated set, whatever else was negotiated and whatever
`context_type` and `name` hold; and when the mandatory set is fully
negotiated but `context_type` was never set, `Finish` also yields
`Disconnect`. -/
theorem finish_mandatory_gate (s : HandshakeState) :
    ((lookupTable s.negotiated_interfaces "ei_connection" = none ∨
      lookupTable s.negotiated_interfaces "ei_pingpong" = none ∨
      lookupTable s.negotiated_interfaces "ei_callback" = none) →
      (handle_request s .finish).2 = .Disconnect) ∧
    (∀ a b c, lookupTable s.negotiated_interfaces "ei_connection" = some a →
      lookupTable s.negotiated_interfaces "ei_pingpong" = some b →
      lookupTable s.negotiated_interfaces "ei_callback" = some c →
      s.context_type = none →
      (handle_request s .finish).2 = .Disconnect) := by
  constructor
  · intro h
    rcases h with h | h | h <;> simp [handle_request, h]
  · intro a b c ha hb hc hctx
    simp [handle_request, ha, hb, hc, hctx]

/-- Witness for C3: the fresh handshake state (nothing negotiated) is
disconnected on `Finish`, and so is a state with exactly the mandatory
set negotiated but no context type. -/
theorem finish_mandatory_gate_witness :
    (handle_request HandshakeState.init .finish).2 = .Disconnect ∧
    (handle_request
      { context_type := none, name := some "client",
        negotiated_interfaces :=
          [("ei_connection", 1), ("ei_pingpong", 1), ("ei_callback", 1)] }
      .finish).2 = .Disconnect :=
  ⟨(finish_mandatory_gate HandshakeState.init).1 (Or.inl (by decide)),
   (finish_mandatory_gate
      { context_type := none, name := some "client",
        negotiated_interfaces :=
          [("ei_connection", 1), ("ei_pingpong", 1), ("ei_callback", 1)] }).2
      1 1 1 (by decide) (by decide) (by decide) rfl⟩

/-- C7: once `context_type` is set, a further `ContextType` request (same
or different value) yields `Disconnect` and leaves the whole state — in
particular the stored `context_type` — unchanged; likewise for a second
`Name` request. -/
theorem duplicate_context_type_or_name (s : HandshakeState) :
    (∀ c t, s.context_type = some c →
      handle_request s (.contextType t) = (s, .Disconnect)) ∧
    (∀ n m, s.name = some n →
      handle_request s (.name m) = (s, .Disconnect)) := by
  constructor
  · intro c t h
    simp [handle_request, h]
  · intro n m h
    simp [handle_request, h]

/-- Witness for C7: a state whose context type is `sender` is disconnected
(unchanged) by a `ContextType(receiver)` request, and a state named "a"
is disconnected (unchanged) by a `Name("b")` request. -/
theorem duplicate_context_type_or_name_witness :
    handle_request { context_type := some .sender, name := none, negotiated_interfaces := [] }
        (.contextType .receiver) =
      ({ context_type := some .sender, name := none, negotiated_interfaces := [] },
        .Disconnect) ∧
    handle_request { context_type := none, name := some "a", negotiated_interfaces := [] }
        (.name "b") =
      ({ context_type := none, name := some "a", negotiated_interfaces := [] },
        .Disconnect) :=
  ⟨(duplicate_context_type_or_name
      { context_type := some .sender, name := none, negotiated_interfaces := [] }).1
      .sender .receiver rfl,
   (duplicate_context_type_or_name
      { context_type := none, name := some "a", negotiated_interfaces := [] }).2
      "a" "b" rfl⟩

/-! ## Claim theorems: Request Translator -/

/-- C8: the continuous per-axis scroll amount is exactly the pure function
of the submessage fields described by the spec (`scrollAmountSpec`), and
the spec's concrete examples hold: `Delta{dx:0, dy:5}` gives horizontal
absent / vertical 5; `Cancel{x:true, y:false}` gives horizontal 0.01 /
vertical absent; `Stop{x:false, y:true}` gives horizontal absent /
vertical 0; `Discrete` gives absent on both axes. -/
theorem scroll_amount_pure_function :
    (∀ ev axis, ScrollEvent.amount ev axis = scrollAmountSpec ev axis) ∧
    ScrollEvent.amount (.Delta ⟨0, 5⟩) .Horizontal = none ∧
    ScrollEvent.amount (.Delta ⟨0, 5⟩) .Vertical = some 5 ∧
    ScrollEvent.amount (.Cancel ⟨true, false⟩) .Horizontal = some (1 / 100) ∧
    ScrollEvent.amount (.Cancel ⟨true, false⟩) .Vertical = none ∧
    ScrollEvent.amount (.Stop ⟨false, true⟩) .Horizontal = none ∧
    ScrollEvent.amount (.Stop ⟨false, true⟩) .Vertical = some 0 ∧
    (∀ d axis, ScrollEvent.amount (.Discrete d) axis = none) := by
  refine ⟨?_, by norm_num [ScrollEvent.amount], by norm_num [ScrollEvent.amount],
    by norm_num [ScrollEvent.amount], by norm_num [ScrollEvent.amount],
    by norm_num [ScrollEvent.amount], by norm_num [ScrollEvent.amount], ?_⟩
  · intro ev axis
    cases ev <;> cases axis <;>
      simp only [ScrollEvent.amount, scrollAmountSpec] <;>
      split <;> simp_all
  · intro d axis
    cases axis <;> rfl

/-- C10: on every `ScrollEvent` and axis, at most one of the continuous
channel (`amount`) and the discrete 120-units channel (`amount_v120`) is
present, and the discrete channel is present exactly for a `Discrete`
event whose discrete value on that axis is non-zero. -/
theorem scroll_channels_mutually_exclusive (ev : ScrollEvent) (axis : Axis) :
    (ScrollEvent.amount ev axis = none ∨ ScrollEvent.amount_v120 ev axis = none) ∧
    ((ScrollEvent.amount_v120 ev axis).isSome = true ↔
      ∃ d, ev = .Discrete d ∧
        (match axis with
         | .Horizontal => d.discrete_dx ≠ 0
         | .Vertical => d.discrete_dy ≠ 0)) := by
  constructor
  · cases ev <;> cases axis <;> simp [ScrollEvent.amount, ScrollEvent.amount_v120]
  · cases ev <;> cases axis <;> simp [ScrollEvent.amount_v120]

/-- Witness for C10: a discrete scroll of one notch down has its 120-units
channel present on the vertical axis, as the characterization demands. -/
theorem scroll_channels_mutually_exclusive_witness :
    (ScrollEvent.amount (.Discrete ⟨0, 120⟩) .Vertical = none ∨
      ScrollEvent.amount_v120 (.Discrete ⟨0, 120⟩) .Vertical = none) ∧
    (ScrollEvent.amount_v120 (.Discrete ⟨0, 120⟩) .Vertical).isSome = true :=
  ⟨(scroll_channels_mutually_exclusive (.Discrete ⟨0, 120⟩) .Vertical).1,
   (scroll_channels_mutually_exclusive (.Discrete ⟨0, 120⟩) .Vertical).2.mpr
     ⟨⟨0, 120⟩, rfl, by decide⟩⟩

/-- C9 counterexample: the key-code translation is `u32` addition, which
wraps: at wire key `4294967295` (`u32::MAX`) the translated key code is
`7`, not the claim's `wire key + 8`. -/
theorem keyboard_key_code_overflow_counterexample :
    KeyboardKey.key_code ⟨4294967295, .Press⟩ ≠ 4294967295 + 8 := by decide

/-- C9 (amended): the translated key code is `(wire key + 8) mod 2^32` —
hence equal to `wire key + 8` whenever that sum fits in a `u32` — the
state maps wire `Press`/`Released` to `Pressed`/`Released`, the repeat
count is always 1, and wire key 30 yields key code 38. -/
theorem keyboard_key_translation (e : KeyboardKey) :
    e.key_code = (e.key + 8) % U32_MOD ∧
    (e.key + 8 < U32_MOD → e.key_code = e.key + 8) ∧
    (e.state = .Press → e.keyState = .Pressed) ∧
    (e.state = .Released → e.keyState = .Released) ∧
    e.count = 1 ∧
    KeyboardKey.key_code ⟨30, .Press⟩ = 38 := by
  refine ⟨rfl, ?_, ?_, ?_, rfl, by decide⟩
  · intro h
    exact Nat.mod_eq_of_lt h
  · intro h
    simp [KeyboardKey.keyState, h]
  · intro h
    simp [KeyboardKey.keyState, h]

/-- Witness for C9: wire key 30 pressed translates to key code 38
(`30 + 8`, no wrap) in state `Pressed`. -/
theorem keyboard_key_translation_witness :
    KeyboardKey.key_code ⟨30, .Press⟩ = 30 + 8 ∧
    KeyboardKey.keyState ⟨30, .Press⟩ = .Pressed :=
  ⟨(keyboard_key_translation ⟨30, .Press⟩).2.1 (by decide),
   (keyboard_key_translation ⟨30, .Press⟩).2.2.1 rfl⟩

/-! ## Claim theorems: I/O Adapter -/

/-- C4: a `Bind` whose bitmask has any bit outside the valid mask `0x7e`
is answered with `Disconnect(Value)` plus an explanation, flushed, before
the source is removed — and the effect list contains no device creation. -/
theorem bind_invalid_capabilities_disconnects (s : ConnState) (capabilities : Nat)
    (h : capabilities &&& 0x7e ≠ capabilities) :
    stepConn s (.requestBind capabilities) =
      .ok s [.sendDisconnected .Value "Invalid capabilities", .flush] .Remove ∧
    countDevices [.sendDisconnected .Value "Invalid capabilities", .flush] = 0 := by
  refine ⟨?_, rfl⟩
  simp [stepConn, h]

/-- Witness for C4: bit 0 (value 1) is outside the valid mask, so
`Bind(1)` is answered with `Disconnect(Value)` and removal. -/
theorem bind_invalid_capabilities_disconnects_witness :
    stepConn { seatSet := true, interfaces := [] } (.requestBind 1) =
      .ok { seatSet := true, interfaces := [] }
        [.sendDisconnected .Value "Invalid capabilities", .flush] .Remove :=
  (bind_invalid_capabilities_disconnects { seatSet := true, interfaces := [] } 1
    (by decide)).1

/-- C5 counterexample: an invalid-object notification is ignored — the
event-processing step returns `Continue` (with only the batch flush), not
the `Remove` post-action the claim demands. -/
theorem invalid_object_continue_counterexample :
    stepConn { seatSet := true, interfaces := [] } (.invalidObject 42) =
      .ok { seatSet := true, interfaces := [] } [.flush] .Continue ∧
    PostAction.Continue ≠ PostAction.Remove :=
  ⟨rfl, by decide⟩

/-- C5 (amended): an invalid-object reference is silently ignored (the
step keeps the state, performs only the batch flush, and returns
`Continue`); the connection is removed on `Disconnect` and on I/O error. -/
theorem removal_post_actions (s : ConnState) (objectId : Nat) :
    stepConn s (.invalidObject objectId) = .ok s [.flush] .Continue ∧
    stepConn s .requestDisconnect = .ok s [] .Remove ∧
    stepConn s .ioError = .ok s [.logError] .Remove :=
  ⟨rfl, rfl, rfl⟩

/-- C2: the Bind handler keeps no record of already-bound capability bits
(the source's own `TODO` notes the missing comparison against the current
bitflag), so re-sending the same valid `Bind` creates the same devices
again: with `ei_keyboard` negotiated, `Connected` followed by two
`Bind(0x8)` requests creates two keyboard devices, where the claim allows
only one. -/
theorem bind_duplicates_devices :
    runDevices (runConn { seatSet := false, interfaces := ["ei_keyboard"] }
      [.connected, .requestBind 8]) = 1 ∧
    runDevices (runConn { seatSet := false, interfaces := ["ei_keyboard"] }
      [.connected, .requestBind 8, .requestBind 8]) = 2 := by
  constructor <;> rfl

/-! ### C6 helpers -/

/-- A batch is seat-safe when no valid-bitmask `Bind` is handled while
`self.seat` is still `None`: either the seat is already set, the batch's
`Connected` event comes first, or the batch is cut short by a `Remove`
before any such `Bind`. -/
def seatSafe : Bool → List SourceEvent → Bool
  | _, [] => true
  | true, _ :: rest => seatSafe true rest
  | false, .connected :: rest => seatSafe true rest
  | false, .requestBind capabilities :: _ =>
      if (capabilities &&& 0x7e) == capabilities then false else true
  | false, .requestDisconnect :: _ => true
  | false, .ioError :: _ => true
  | false, .requestOther :: rest => seatSafe false rest
  | false, .invalidObject _ :: rest => seatSafe false rest

theorem stepConn_no_panic_of_seat (s : ConnState) (h : s.seatSet = true)
    (ev : SourceEvent) :
    (∀ m, stepConn s ev ≠ .panic m) ∧
    (∀ s' eff post, stepConn s ev = .ok s' eff post → s'.seatSet = true) := by
  cases ev with
  | requestBind c =>
    constructor
    · intro m
      simp only [stepConn, h]
      split <;> simp
    · intro s' eff post
      simp only [stepConn, h]
      split <;> intro hok <;> cases hok <;> exact h
  | connected =>
    exact ⟨fun m => by simp [stepConn], fun s' eff post hok => by cases hok; rfl⟩
  | requestDisconnect =>
    exact ⟨fun m => by simp [stepConn], fun s' eff post hok => by cases hok; exact h⟩
  | requestOther =>
    exact ⟨fun m => by simp [stepConn], fun s' eff post hok => by cases hok; exact h⟩
  | invalidObject oid =>
    exact ⟨fun m => by simp [stepConn], fun s' eff post hok => by cases hok; exact h⟩
  | ioError =>
    exact ⟨fun m => by simp [stepConn], fun s' eff post hok => by cases hok; exact h⟩

theorem runConn_no_panic_of_seat (evs : List SourceEvent) :
    ∀ s : ConnState, s.seatSet = true → ∀ m, runConn s evs ≠ .panic m := by
  induction evs with
  | nil => intro s h m; simp [runConn]
  | cons ev rest ih =>
    intro s h m
    simp only [runConn]
    cases hstep : stepConn s ev with
    | panic m' => exact absurd hstep ((stepConn_no_panic_of_seat s h ev).1 m')
    | ok s' eff post =>
      have hs' := (stepConn_no_panic_of_seat s h ev).2 s' eff post hstep
      by_cases hpost : post = .Remove
      · simp [hpost]
      · simp only [if_neg hpost]
        cases hrun : runConn s' rest with
        | panic m'' => exact absurd hrun (ih s' hs' m'')
        | done s'' eff' post' => simp

theorem runConn_post_cases (evs : List SourceEvent) :
    ∀ (s s' : ConnState) (eff : List Effect) (post : PostAction),
      runConn s evs = .done s' eff post → post = .Continue ∨ post = .Remove := by
  induction evs with
  | nil =>
    intro s s' eff post hdone
    cases hdone
    exact Or.inl rfl
  | cons ev rest ih =>
    intro s s' eff post hdone
    simp only [runConn] at hdone
    cases hstep : stepConn s ev with
    | panic m => rw [hstep] at hdone; cases hdone
    | ok s₀ eff₀ post₀ =>
      rw [hstep] at hdone
      dsimp only at hdone
      by_cases hpost : post₀ = .Remove
      · rw [if_pos hpost] at hdone
        cases hdone
        exact Or.inr rfl
      · rw [if_neg hpost] at hdone
        cases hrun : runConn s₀ rest with
        | panic m => rw [hrun] at hdone; cases hdone
        | done s₁ eff₁ post₁ =>
          rw [hrun] at hdone
          cases hdone
          exact ih _ _ _ _ hrun

theorem runConn_no_panic_of_safe (evs : List SourceEvent) :
    ∀ s : ConnState, seatSafe s.seatSet evs = true → ∀ m, runConn s evs ≠ .panic m := by
  induction evs with
  | nil => intro s _ m; simp [runConn]
  | cons ev rest ih =>
    intro s hsafe m
    cases hseat : s.seatSet with
    | true => exact runConn_no_panic_of_seat (ev :: rest) s hseat m
    | false =>
      rw [hseat] at hsafe
      cases ev with
      | connected =>
        simp only [runConn, stepConn]
        have : seatSafe true rest = true := hsafe
        have hrec := runConn_no_panic_of_seat rest { s with seatSet := true } rfl m
        cases hrun : runConn { s with seatSet := true } rest with
        | panic m' => exact absurd hrun (runConn_no_panic_of_seat rest _ rfl m')
        | done s'' eff' post' => simp
      | requestBind c =>
        have hinvalid : (c &&& 0x7e) ≠ c := by
          intro hc
          simp only [seatSafe, hc] at hsafe
          simp at hsafe
        simp [runConn, stepConn, hinvalid]
      | requestDisconnect => simp [runConn, stepConn]
      | requestOther =>
        simp only [runConn, stepConn]
        have hrest : seatSafe false rest = true := hsafe
        have := ih s (by rw [hseat]; exact hrest)
        cases hrun : runConn s rest with
        | panic m' => exact absurd hrun (this m')
        | done s'' eff' post' => simp
      | invalidObject oid =>
        simp only [runConn, stepConn]
        have hrest : seatSafe false rest = true := hsafe
        have := ih s (by rw [hseat]; exact hrest)
        cases hrun : runConn s rest with
        | panic m' => exact absurd hrun (this m')
        | done s'' eff' post' => simp
      | ioError => simp [runConn, stepConn]

/-- C6 (amended): in any seat-safe batch — one where no valid-bitmask
`Bind` is handled before the `Connected` event has installed the seat —
processing never panics, and every drained batch ends with post-action
`Continue` (no-op / keep going) or `Remove` (drop this one connection).
The exception the counterexample forces: a valid-bitmask `Bind` handled
before `Connected` panics unwrapping the absent seat (mod.rs line 411). -/
theorem adapter_failures_confined (evs : List SourceEvent) (s : ConnState)
    (hsafe : seatSafe s.seatSet evs = true) :
    (∀ m, runConn s evs ≠ .panic m) ∧
    (∀ s' eff post, runConn s evs = .done s' eff post →
      post = .Continue ∨ post = .Remove) :=
  ⟨runConn_no_panic_of_safe evs s hsafe,
   fun s' eff post h => runConn_post_cases evs s s' eff post h⟩

/-- Witness for C6: the batch `Connected, Bind(0x8)` is seat-safe and its
processing does not panic. -/
theorem adapter_failures_confined_witness :
    seatSafe false [SourceEvent.connected, SourceEvent.requestBind 8] = true ∧
    runConn { seatSet := false, interfaces := ["ei_keyboard"] }
        [.connected, .requestBind 8] ≠
      .panic "called Option::unwrap() on a None value" :=
  ⟨by decide,
   (adapter_failures_confined [.connected, .requestBind 8]
      { seatSet := false, interfaces := ["ei_keyboard"] } (by decide)).1 _⟩

/-- C6 counterexample: a `Bind` with the (valid) empty bitmask handled
before `Connected` panics unwrapping the absent seat. -/
theorem bind_before_connected_panics :
    stepConn { seatSet := false, interfaces := [] } (.requestBind 0) =
      .panic "called Option::unwrap() on a None value" ∧
    (0 &&& 0x7e) = 0 :=
  ⟨rfl, rfl⟩

end Libei
